import Mathlib

/-!
# Verification of the `deploy-vcl` task (`src/tasks/deploy.js`)

This file gives a shallow embedding of the deployment orchestrator in
`src/tasks/deploy.js` of `fastly-tools` and proves properties of it.

The orchestrator drives a remote versioned-configuration service through the
sequence: resolve service → clone active version → delete inherited files →
upload new files → set entry point → validate → activate.  All remote calls go
through the `fastly` client object; we model that client as an environment
record (`Fastly`) that fixes, for each remote operation, either its successful
response or the error it rejects with, plus the data the remote holds (the
service list and the files the cloned version inherits).

The run is modelled as a deterministic state-passing computation.  The state
(`RunState`) records the trace of remote calls issued, the remote service's
active-version pointer (written only by a successful `activateVersion`), and
the file set of the freshly cloned version (mutated by `deleteVcl` /
`updateVcl`).  `Promise.all` fan-outs are modelled sequentially in array
order: every per-file call is issued (and its effect applied when that call
succeeds), and the step's result is the first rejection in array order, which
matches the source's "all are dispatched, first rejection is representative"
semantics up to the scheduling order, which the claims leave free.

The `loadVcl` collaborator (`src/lib/loadVcl`, not under `src/`) is opaque to
the orchestrator; its result is passed in as the `vcls` input.  The `exit`
collaborator (`src/lib/exit`, not under `src/`) is modelled from the spec:
"The caller-facing surface converts any failure into a non-zero process exit" —
an effect recorded in the outcome, not a thrown error.
-/

/-- A configuration file: a `(name, content)` pair (`ConfigFile` of the spec,
a `vcl` object in the source). -/
structure Vcl where
  name : String
  content : String
deriving Repr, DecidableEq

/-- A remote service as returned by `fastly.getServices()`: the source reads
`s.id`, `service.name` and `service.version` (the active version). -/
structure Service where
  id : String
  name : String
  version : Nat
deriving Repr, DecidableEq

/-- A JavaScript error value as thrown/rejected in `deploy.js`.
`error m` is a plain `new Error(m)`; `typeError m` is a runtime `TypeError`
(property access on `undefined`); `remote m` is an error produced by the
fastly client (opaque to the orchestrator); `tagged m v` is an `Error` whose
`type` property is the module-private `VCL_VALIDATION_ERROR` symbol and whose
`validation` property is `v` (lines 94–96).  Since the symbol is private to
the module, only the orchestrator itself can construct a `tagged` error. -/
inductive JsErr where
  | error (message : String)
  | typeError (message : String)
  | remote (message : String)
  | tagged (message : String) (validation : JsErr)
deriving Repr, DecidableEq

/-- Result of `fastly.validateVersion`: the source reads `.status` (line 99);
the rest of the payload is the remote diagnostics. -/
structure ValidationResp where
  status : String
  diagnostics : List String
deriving Repr, DecidableEq

/-- One remote-client call as issued by the orchestrator, with its
arguments. -/
inductive Call where
  | getServices
  | cloneVersion (v : Nat)
  | getVcl (v : Nat)
  | deleteVcl (v : Nat) (name : String)
  | updateVcl (v : Nat) (name : String) (content : String)
  | setVclAsMain (v : Nat) (name : String)
  | validateVersion (v : Nat)
  | activateVersion (v : Nat)
deriving Repr, DecidableEq

/-- Observable state of a run: the trace of remote calls issued so far, the
remote service's active-version pointer, and the file set of the cloned
version (meaningful once the clone has been created). -/
structure RunState where
  trace : List Call
  activeVersion : Nat
  newFiles : List Vcl
deriving Repr, DecidableEq

/-- The options object after the `Object.assign` defaulting of lines 18–24.
`service = none` models an absent/falsy service parameter (default `null`). -/
structure Options where
  main : String := "main.vcl"
  service : Option String := none
  vars : List String := []
  env : Bool := false
  verbose : Bool := false
deriving Repr, DecidableEq

/-- The remote environment: for each fastly-client operation, the response
the remote gives on this run (fault injection per operation, per file name
where the source issues per-file calls).  `inheritedFiles` is the file set
the cloned version starts with — the clone source's files, which
`getVcl(newVersion)` reports and the delete loop removes. -/
structure Fastly where
  getServices : Except JsErr (List Service)
  cloneErr : Option JsErr
  cloneNumber : Nat
  inheritedFiles : List Vcl
  getVclErr : Option JsErr
  deleteVclErr : String → Option JsErr
  updateVclErr : String → Option JsErr
  setVclAsMainErr : Option JsErr
  validateVersion : Except JsErr ValidationResp
  activateErr : Option JsErr

/-- Line 42: `const serviceId = process.env[opts.service] || opts.service`.
The environment value is used when it is set and non-empty (truthy); otherwise
the parameter itself is the service id. -/
def resolveServiceId (procEnv : String → Option String) (service : String) : String :=
  match procEnv service with
  | some v => if v = "" then service else v
  | none => service

/-- Lines 33–46: the configuration checks performed before the fastly client
is constructed (hence before any remote call).  Returns the resolved
`serviceId` on success.  A missing value and an empty string are both falsy
in the source's `!x` tests. -/
def configStage (procEnv : String → Option String) (opts : Options) :
    Except JsErr String :=
  match opts.service with
  | none => .error (.error "the service parameter is required set to the service id of a environment variable name")
  | some svc =>
    if svc = "" then
      .error (.error "the service parameter is required set to the service id of a environment variable name")
    else
      match procEnv "FASTLY_APIKEY" with
      | none => .error (.error "FASTLY_APIKEY not found")
      | some k =>
        if k = "" then .error (.error "FASTLY_APIKEY not found")
        else
          let serviceId := resolveServiceId procEnv svc
          if serviceId = "" then .error (.error "No service ")
          else .ok serviceId

/-- Lines 58–59: `fastly.getServices().then(services => services.find(s =>
s.id === serviceId))` followed by `service.version`.  When no service
matches, `find` yields `undefined` and the `.version` access on line 59
throws a `TypeError`. -/
def resolveStage (fastly : Fastly) (serviceId : String) (s : RunState) :
    Except JsErr Service × RunState :=
  let s := { s with trace := s.trace ++ [Call.getServices] }
  match fastly.getServices with
  | .error e => (.error e, s)
  | .ok services =>
    match services.find? (fun sv => sv.id == serviceId) with
    | none => (.error (.typeError "Cannot read property version of undefined"), s)
    | some service => (.ok service, s)

/-- Lines 62–66: clone the active version; the new version starts as a copy
of the clone source's files. -/
def cloneStage (fastly : Fastly) (service : Service) (s : RunState) :
    Except JsErr Nat × RunState :=
  let s := { s with trace := s.trace ++ [Call.cloneVersion service.version] }
  match fastly.cloneErr with
  | some e => (.error e, s)
  | none => (.ok fastly.cloneNumber, { s with newFiles := fastly.inheritedFiles })

/-- Lines 69–74: `getVcl(newVersion)` lists the inherited files, then
`Promise.all` issues a `deleteVcl` for each of them.  Every delete is
dispatched; each successful delete removes its file; the step's result is
the first rejection in array order, if any. -/
def cleanupStage (fastly : Fastly) (newVersion : Nat) (s : RunState) :
    Except JsErr Unit × RunState :=
  let s := { s with trace := s.trace ++ [Call.getVcl newVersion] }
  match fastly.getVclErr with
  | some e => (.error e, s)
  | none =>
    let oldVcl := s.newFiles
    let s := { s with
      trace := s.trace ++ oldVcl.map (fun v => Call.deleteVcl newVersion v.name),
      newFiles := s.newFiles.filter (fun v => (fastly.deleteVclErr v.name).isSome) }
    match oldVcl.findSome? (fun v => fastly.deleteVclErr v.name) with
    | some e => (.error e, s)
    | none => (.ok (), s)

/-- Creating-or-replacing a file by name, the effect of a successful
`fastly.updateVcl(newVersion, {name, content})`. -/
def upsert (fs : List Vcl) (v : Vcl) : List Vcl :=
  if fs.any (fun f => f.name == v.name) then
    fs.map (fun f => if f.name == v.name then { f with content := v.content } else f)
  else
    fs ++ [v]

/-- Lines 77–84: `Promise.all` issues an `updateVcl` for every source file;
every upload is dispatched; each successful upload installs its file; the
step's result is the first rejection in array order, if any. -/
def uploadStage (vcls : List Vcl) (fastly : Fastly) (newVersion : Nat) (s : RunState) :
    Except JsErr Unit × RunState :=
  let s := { s with
    trace := s.trace ++ vcls.map (fun v => Call.updateVcl newVersion v.name v.content),
    newFiles := vcls.foldl
      (fun fs v => if (fastly.updateVclErr v.name).isSome then fs else upsert fs v)
      s.newFiles }
  match vcls.findSome? (fun v => fastly.updateVclErr v.name) with
  | some e => (.error e, s)
  | none => (.ok (), s)

/-- Lines 87–88: `fastly.setVclAsMain(newVersion, options.main)`. -/
def mainStage (opts : Options) (fastly : Fastly) (newVersion : Nat) (s : RunState) :
    Except JsErr Unit × RunState :=
  let s := { s with trace := s.trace ++ [Call.setVclAsMain newVersion opts.main] }
  match fastly.setVclAsMainErr with
  | some e => (.error e, s)
  | none => (.ok (), s)

/-- Lines 93–98: the `.catch` attached to `validateVersion`.  It constructs
the `VCL_VALIDATION_ERROR`-tagged wrapper (`error.type = VCL_VALIDATION_ERROR;
error.validation = err`) but then executes `throw err;`, rethrowing the raw
error and discarding the wrapper it just built. -/
def validationCatch (err : JsErr) : JsErr :=
  let error := JsErr.tagged "VCL Validation Error" err
  let _ := error
  err

/-- Lines 91–98: request validation of the new version, with the source's
`.catch` wrapper applied to a transport-level rejection. -/
def validateStage (fastly : Fastly) (newVersion : Nat) (s : RunState) :
    Except JsErr ValidationResp × RunState :=
  let s := { s with trace := s.trace ++ [Call.validateVersion newVersion] }
  match fastly.validateVersion with
  | .error err => (.error (validationCatch err), s)
  | .ok r => (.ok r, s)

/-- Lines 100–101: `fastly.activateVersion(newVersion)`; on success the
remote service's active-version pointer moves to the new version. -/
def activateStage (fastly : Fastly) (newVersion : Nat) (s : RunState) :
    Except JsErr Unit × RunState :=
  let s := { s with trace := s.trace ++ [Call.activateVersion newVersion] }
  match fastly.activateErr with
  | some e => (.error e, s)
  | none => (.ok (), { s with activeVersion := newVersion })

/-- Lines 69–104: the per-version workflow once the clone exists: delete the
inherited files, upload the new ones, set the entry point, validate, and —
only when the validation response has `status === 'ok'` — activate.  A non-ok
status throws the generic error of line 103. -/
def versionWorkflow (opts : Options) (vcls : List Vcl) (fastly : Fastly)
    (newVersion : Nat) (s : RunState) : Except JsErr Unit × RunState :=
  match cleanupStage fastly newVersion s with
  | (.error e, s) => (.error e, s)
  | (.ok _, s) =>
    match uploadStage vcls fastly newVersion s with
    | (.error e, s) => (.error e, s)
    | (.ok _, s) =>
      match mainStage opts fastly newVersion s with
      | (.error e, s) => (.error e, s)
      | (.ok _, s) =>
        match validateStage fastly newVersion s with
        | (.error e, s) => (.error e, s)
        | (.ok validationResponse, s) =>
          if validationResponse.status = "ok" then
            activateStage fastly newVersion s
          else
            (.error (.error "VCL failed validation for some unknown reason"), s)

/-- Lines 32–108: the body of the `co` generator — the whole deployment run,
from the configuration checks to activation.  `vcls` is the (opaque) result
of the `loadVcl` collaborator; `a₀` is the remote service's active-version
pointer at the start of the run.  Returns the promise outcome before the
terminal `.catch`, together with the final observable state. -/
def deployRun (procEnv : String → Option String) (opts : Options) (vcls : List Vcl)
    (fastly : Fastly) (a₀ : Nat) : Except JsErr Unit × RunState :=
  let s0 : RunState := ⟨[], a₀, []⟩
  match configStage procEnv opts with
  | .error e => (.error e, s0)
  | .ok serviceId =>
    match resolveStage fastly serviceId s0 with
    | (.error e, s) => (.error e, s)
    | (.ok service, s) =>
      match cloneStage fastly service s with
      | (.error e, s) => (.error e, s)
      | (.ok newVersion, s) => versionWorkflow opts vcls fastly newVersion s

/-- Line 111: `err.type && err.type === VCL_VALIDATION_ERROR`.  Only a
`tagged` error carries the module-private symbol. -/
def isVclValidationError : JsErr → Bool
  | .tagged _ _ => true
  | _ => false

/-- The `validation` property attached to a tagged error (line 96), read by
the handler on line 113; absent on every other error. -/
def jsValidation : JsErr → Option JsErr
  | .tagged _ v => some v
  | _ => none

/-- Which branch of the terminal catch handler (lines 111–116) ran. -/
inductive HandlerBranch where
  | validation
  | generic
deriving Repr, DecidableEq

/-- Observable outcome of one `task` invocation: the error the terminal
catch handler received (if any), the handler branch that reported it, whether
the `exit` routine was invoked, the payload logged by the validation branch
(`log.error(err.validation)`, line 113), and the final remote state. -/
structure TaskOutcome where
  handledError : Option JsErr
  branch : Option HandlerBranch
  exitCalled : Bool
  loggedValidation : Option JsErr
  st : RunState
deriving Repr, DecidableEq

/-- Lines 110–118: the terminal `.catch` handler.  It distinguishes the
`VCL_VALIDATION_ERROR`-tagged error (logging `err.validation`) from every
other error (logging `err.stack`) and then invokes `exit('Bailing...')`.
Modelled from the spec: `exit` (`src/lib/exit`, not under `src/`) converts
the failure into a non-zero process exit — an effect, not a thrown error —
so the handler completes normally. -/
def catchHandler (e : JsErr) (s : RunState) : TaskOutcome :=
  if isVclValidationError e then
    ⟨some e, some HandlerBranch.validation, true, jsValidation e, s⟩
  else
    ⟨some e, some HandlerBranch.generic, true, none, s⟩

/-- Lines 32–118: the promise returned by `task`: the `co` run with the
terminal `.catch` attached.  A fulfilled inner promise passes through; a
rejected one is mapped by the catch handler to a normal completion. -/
def taskPromise (procEnv : String → Option String) (opts : Options) (vcls : List Vcl)
    (fastly : Fastly) (a₀ : Nat) : Except JsErr TaskOutcome :=
  match deployRun procEnv opts vcls fastly a₀ with
  | (.ok _, s) => .ok ⟨none, none, false, none, s⟩
  | (.error e, s) => .ok (catchHandler e s)

/-! ## Helper instances and predicates -/

/-- View of an `Except` value as a sum, to derive decidable equality. -/
def exceptToSum {ε α : Type} : Except ε α → ε ⊕ α
  | .error e => .inl e
  | .ok a => .inr a

instance {ε α : Type} [DecidableEq ε] [DecidableEq α] : DecidableEq (Except ε α) :=
  fun a b =>
    decidable_of_iff (exceptToSum a = exceptToSum b)
      (by cases a <;> cases b <;> simp [exceptToSum])

/-- All the remote steps from clone through validation succeed in the given
environment: clone, file listing, every per-file delete of the inherited
files, every per-file upload of the source files, the entry-point call, and a
validation call that completes with status `ok`. -/
def stepsThroughValidationOk (vcls : List Vcl) (fastly : Fastly) : Bool :=
  fastly.cloneErr.isNone &&
  fastly.getVclErr.isNone &&
  fastly.inheritedFiles.all (fun f => (fastly.deleteVclErr f.name).isNone) &&
  vcls.all (fun v => (fastly.updateVclErr v.name).isNone) &&
  fastly.setVclAsMainErr.isNone &&
  (match fastly.validateVersion with
   | .ok r => r.status == "ok"
   | .error _ => false)

/-- The full trace of remote calls a run issues up to and including the
validation request, when every step up to there succeeds: resolve, clone,
list inherited files, delete each of them, upload each source file, set the
entry point, validate. -/
def preActivateTrace (opts : Options) (vcls : List Vcl) (fastly : Fastly)
    (sv : Service) : List Call :=
  [Call.getServices, Call.cloneVersion sv.version, Call.getVcl fastly.cloneNumber]
    ++ fastly.inheritedFiles.map (fun v => Call.deleteVcl fastly.cloneNumber v.name)
    ++ vcls.map (fun v => Call.updateVcl fastly.cloneNumber v.name v.content)
    ++ [Call.setVclAsMain fastly.cloneNumber opts.main,
        Call.validateVersion fastly.cloneNumber]

/-! ## Per-stage lemmas -/

theorem resolveStage_state (fastly : Fastly) (sid : String) (s : RunState) :
    (resolveStage fastly sid s).2 = { s with trace := s.trace ++ [Call.getServices] } := by
  unfold resolveStage
  rcases fastly.getServices with e | services
  · rfl
  · rcases h : services.find? (fun sv => sv.id == sid) with _ | sv <;> simp [h]

theorem resolveStage_ok_inv (fastly : Fastly) (sid : String) (s : RunState) (sv : Service)
    (h : (resolveStage fastly sid s).1 = .ok sv) :
    ∃ services, fastly.getServices = .ok services ∧
      services.find? (fun x => x.id == sid) = some sv := by
  unfold resolveStage at h
  rcases hg : fastly.getServices with e | services <;> simp only [hg] at h
  · simp at h
  · rcases hf : services.find? (fun x => x.id == sid) with _ | sv' <;>
      simp only [hf] at h <;> simp at h
    exact ⟨services, rfl, by rw [hf, h]⟩

theorem cloneStage_state_trace (fastly : Fastly) (sv : Service) (s : RunState) :
    (cloneStage fastly sv s).2.trace = s.trace ++ [Call.cloneVersion sv.version] := by
  unfold cloneStage
  rcases h : fastly.cloneErr with _ | e <;> simp [h]

theorem cloneStage_active (fastly : Fastly) (sv : Service) (s : RunState) :
    (cloneStage fastly sv s).2.activeVersion = s.activeVersion := by
  unfold cloneStage
  rcases h : fastly.cloneErr with _ | e <;> simp [h]

theorem cloneStage_ok (fastly : Fastly) (sv : Service) (s : RunState)
    (h : fastly.cloneErr = none) :
    cloneStage fastly sv s =
      (.ok fastly.cloneNumber,
        { s with trace := s.trace ++ [Call.cloneVersion sv.version],
                 newFiles := fastly.inheritedFiles }) := by
  unfold cloneStage
  rw [h]

theorem cloneStage_ok_inv (fastly : Fastly) (sv : Service) (s : RunState) (n : Nat)
    (h : (cloneStage fastly sv s).1 = .ok n) :
    fastly.cloneErr = none ∧ n = fastly.cloneNumber ∧
      (cloneStage fastly sv s).2.newFiles = fastly.inheritedFiles := by
  unfold cloneStage at h ⊢
  rcases hc : fastly.cloneErr with _ | e
  · simp only [hc] at h ⊢
    simp at h
    exact ⟨trivial, h.symm, trivial⟩
  · simp only [hc] at h
    simp at h

theorem cleanupStage_active (fastly : Fastly) (n : Nat) (s : RunState) :
    (cleanupStage fastly n s).2.activeVersion = s.activeVersion := by
  unfold cleanupStage
  rcases h : fastly.getVclErr with _ | e
  · simp only [h]
    rcases hd : s.newFiles.findSome? (fun v => fastly.deleteVclErr v.name) with _ | e <;>
      simp [hd]
  · simp only [h]

theorem cleanupStage_trace_mem (fastly : Fastly) (n : Nat) (s : RunState) (m : Nat)
    (h : Call.activateVersion m ∈ (cleanupStage fastly n s).2.trace) :
    Call.activateVersion m ∈ s.trace := by
  unfold cleanupStage at h
  rcases hg : fastly.getVclErr with _ | e <;> simp only [hg] at h
  · rcases hd : s.newFiles.findSome? (fun v => fastly.deleteVclErr v.name) with _ | e <;>
      simp only [hd] at h <;> simpa using h
  · simpa using h

theorem cleanupStage_ok (fastly : Fastly) (n : Nat) (s : RunState)
    (hg : fastly.getVclErr = none)
    (hd : s.newFiles.findSome? (fun v => fastly.deleteVclErr v.name) = none) :
    cleanupStage fastly n s =
      (.ok (),
        { s with trace := (s.trace ++ [Call.getVcl n])
                   ++ s.newFiles.map (fun v => Call.deleteVcl n v.name),
                 newFiles := [] }) := by
  have hall : ∀ v ∈ s.newFiles, fastly.deleteVclErr v.name = none :=
    List.findSome?_eq_none_iff.mp hd
  have hfil : s.newFiles.filter (fun v => (fastly.deleteVclErr v.name).isSome) = [] := by
    apply List.filter_eq_nil_iff.mpr
    intro v hv
    simp [hall v hv]
  unfold cleanupStage
  rw [hg]
  simp only [hd, hfil]

theorem cleanupStage_ok_inv (fastly : Fastly) (n : Nat) (s : RunState) (u : Unit)
    (h : (cleanupStage fastly n s).1 = .ok u) :
    fastly.getVclErr = none ∧
      s.newFiles.findSome? (fun v => fastly.deleteVclErr v.name) = none := by
  unfold cleanupStage at h
  rcases hg : fastly.getVclErr with _ | e <;> simp only [hg] at h
  · rcases hd : s.newFiles.findSome? (fun v => fastly.deleteVclErr v.name) with _ | e <;>
      simp only [hd] at h
    · exact ⟨rfl, hd⟩
    · simp at h
  · simp at h

theorem uploadStage_state (vcls : List Vcl) (fastly : Fastly) (n : Nat) (s : RunState) :
    (uploadStage vcls fastly n s).2 =
      { s with
        trace := s.trace ++ vcls.map (fun v => Call.updateVcl n v.name v.content),
        newFiles := vcls.foldl
          (fun fs v => if (fastly.updateVclErr v.name).isSome then fs else upsert fs v)
          s.newFiles } := by
  unfold uploadStage
  rcases h : vcls.findSome? (fun v => fastly.updateVclErr v.name) with _ | e <;> simp [h]

theorem uploadStage_res (vcls : List Vcl) (fastly : Fastly) (n : Nat) (s : RunState) :
    (uploadStage vcls fastly n s).1 =
      (match vcls.findSome? (fun v => fastly.updateVclErr v.name) with
       | some e => .error e
       | none => .ok ()) := by
  unfold uploadStage
  rcases h : vcls.findSome? (fun v => fastly.updateVclErr v.name) with _ | e <;> simp [h]

theorem mainStage_state (opts : Options) (fastly : Fastly) (n : Nat) (s : RunState) :
    (mainStage opts fastly n s).2 =
      { s with trace := s.trace ++ [Call.setVclAsMain n opts.main] } := by
  unfold mainStage
  rcases h : fastly.setVclAsMainErr with _ | e <;> simp [h]

theorem validateStage_state (fastly : Fastly) (n : Nat) (s : RunState) :
    (validateStage fastly n s).2 =
      { s with trace := s.trace ++ [Call.validateVersion n] } := by
  unfold validateStage
  rcases h : fastly.validateVersion with e | r <;> simp [h]

theorem activateStage_trace (fastly : Fastly) (n : Nat) (s : RunState) :
    (activateStage fastly n s).2.trace = s.trace ++ [Call.activateVersion n] := by
  unfold activateStage
  rcases h : fastly.activateErr with _ | e <;> simp [h]

theorem activateStage_newFiles (fastly : Fastly) (n : Nat) (s : RunState) :
    (activateStage fastly n s).2.newFiles = s.newFiles := by
  unfold activateStage
  rcases h : fastly.activateErr with _ | e <;> simp [h]

theorem activateStage_ok (fastly : Fastly) (n : Nat) (s : RunState)
    (h : fastly.activateErr = none) :
    activateStage fastly n s =
      (.ok (), { s with trace := s.trace ++ [Call.activateVersion n],
                        activeVersion := n }) := by
  unfold activateStage
  rw [h]

theorem activateStage_fail (fastly : Fastly) (n : Nat) (s : RunState) (e : JsErr)
    (h : fastly.activateErr = some e) :
    activateStage fastly n s =
      (.error e, { s with trace := s.trace ++ [Call.activateVersion n] }) := by
  unfold activateStage
  rw [h]

/-! ## Whole-run case analysis -/

/-- The observable state just after the validation request, for a run in
which every step up to there succeeded. -/
def postValidateState (opts : Options) (vcls : List Vcl) (fastly : Fastly)
    (sv : Service) (a₀ : Nat) : RunState :=
  { trace := preActivateTrace opts vcls fastly sv,
    activeVersion := a₀,
    newFiles := vcls.foldl
      (fun fs v => if (fastly.updateVclErr v.name).isSome then fs else upsert fs v) [] }

/-- All the conditions under which a run reaches the activation step: the
configuration checks pass, the remote lists a matching service, and every
remote step from clone through validation succeeds with validation status
`ok`. -/
def ReachBundle (p : String → Option String) (o : Options) (v : List Vcl) (f : Fastly)
    (serviceId : String) (services : List Service) (sv : Service)
    (r : ValidationResp) : Prop :=
  configStage p o = .ok serviceId ∧
  f.getServices = .ok services ∧
  services.find? (fun x => x.id == serviceId) = some sv ∧
  f.cloneErr = none ∧
  f.getVclErr = none ∧
  f.inheritedFiles.findSome? (fun x => f.deleteVclErr x.name) = none ∧
  v.findSome? (fun x => f.updateVclErr x.name) = none ∧
  f.setVclAsMainErr = none ∧
  f.validateVersion = .ok r ∧
  r.status = "ok"

/-- Every run either reaches the activation step — in which case all the
`ReachBundle` conditions hold and the run is exactly the activation call on
the fully-prepared state — or it stops earlier, in which case it is not
successful, the active-version pointer is untouched, and no `activateVersion`
call appears in the trace. -/
theorem deployRun_cases (p : String → Option String) (o : Options) (v : List Vcl)
    (f : Fastly) (a₀ : Nat) :
    (∃ serviceId services sv r, ReachBundle p o v f serviceId services sv r ∧
        deployRun p o v f a₀ =
          activateStage f f.cloneNumber (postValidateState o v f sv a₀)) ∨
    ((deployRun p o v f a₀).1 ≠ .ok () ∧
      (deployRun p o v f a₀).2.activeVersion = a₀ ∧
      ∀ m, Call.activateVersion m ∉ (deployRun p o v f a₀).2.trace) := by
  rcases hcfg : configStage p o with e | serviceId
  · right
    simp [deployRun, hcfg]
  rcases hgs : f.getServices with e | services
  · right
    simp [deployRun, hcfg, resolveStage, hgs]
  rcases hfind : services.find? (fun x => x.id == serviceId) with _ | sv
  · right
    simp [deployRun, hcfg, resolveStage, hgs, hfind]
  rcases hclone : f.cloneErr with _ | e
  case some =>
    right
    simp [deployRun, hcfg, resolveStage, hgs, hfind, cloneStage, hclone]
  rcases hgetv : f.getVclErr with _ | e
  case some =>
    right
    simp [deployRun, hcfg, resolveStage, hgs, hfind, cloneStage, hclone,
      versionWorkflow, cleanupStage, hgetv]
  rcases hdel : f.inheritedFiles.findSome? (fun x => f.deleteVclErr x.name) with _ | e
  case some =>
    right
    simp [deployRun, hcfg, resolveStage, hgs, hfind, cloneStage, hclone,
      versionWorkflow, cleanupStage, hgetv, hdel]
  rcases hup : v.findSome? (fun x => f.updateVclErr x.name) with _ | e
  case some =>
    right
    simp [deployRun, hcfg, resolveStage, hgs, hfind, cloneStage, hclone,
      versionWorkflow, cleanupStage, hgetv, hdel, uploadStage, hup]
  rcases hsetm : f.setVclAsMainErr with _ | e
  case some =>
    right
    simp [deployRun, hcfg, resolveStage, hgs, hfind, cloneStage, hclone,
      versionWorkflow, cleanupStage, hgetv, hdel, uploadStage, hup, mainStage, hsetm]
  rcases hval : f.validateVersion with err | r
  case error =>
    right
    simp [deployRun, hcfg, resolveStage, hgs, hfind, cloneStage, hclone,
      versionWorkflow, cleanupStage, hgetv, hdel, uploadStage, hup, mainStage, hsetm,
      validateStage, hval, validationCatch]
  by_cases hst : r.status = "ok"
  · left
    refine ⟨serviceId, services, sv, r,
      ⟨hcfg, hgs, hfind, hclone, hgetv, hdel, hup, hsetm, hval, hst⟩, ?_⟩
    have hfil : f.inheritedFiles.filter (fun x => (f.deleteVclErr x.name).isSome) = [] := by
      apply List.filter_eq_nil_iff.mpr
      intro x hx
      simp [List.findSome?_eq_none_iff.mp hdel x hx]
    simp [deployRun, hcfg, resolveStage, hgs, hfind, cloneStage, hclone,
      versionWorkflow, cleanupStage, hgetv, hdel, hfil, uploadStage, hup, mainStage, hsetm,
      validateStage, hval, hst, postValidateState, preActivateTrace]
  · right
    simp [deployRun, hcfg, resolveStage, hgs, hfind, cloneStage, hclone,
      versionWorkflow, cleanupStage, hgetv, hdel, uploadStage, hup, mainStage, hsetm,
      validateStage, hval, hst]

/-- No call recorded up to and including the validation request is an
activation. -/
theorem preActivateTrace_no_activate (o : Options) (v : List Vcl) (f : Fastly)
    (sv : Service) (m : Nat) :
    Call.activateVersion m ∉ preActivateTrace o v f sv := by
  simp [preActivateTrace]

/-- A successful run satisfies all the reach conditions, activation
succeeded, and the run's outcome is fully determined: the canonical trace,
the new version active, and the uploaded file set in place. -/
theorem deployRun_ok_inv (p : String → Option String) (o : Options) (v : List Vcl)
    (f : Fastly) (a₀ : Nat) (h : (deployRun p o v f a₀).1 = .ok ()) :
    ∃ serviceId services sv r, ReachBundle p o v f serviceId services sv r ∧
      f.activateErr = none ∧
      deployRun p o v f a₀ =
        (.ok (), { trace := preActivateTrace o v f sv ++ [Call.activateVersion f.cloneNumber],
                   activeVersion := f.cloneNumber,
                   newFiles := (postValidateState o v f sv a₀).newFiles }) := by
  rcases deployRun_cases p o v f a₀ with ⟨sid, svs, sv, r, hb, heq⟩ | ⟨hne, -, -⟩
  · rcases ha : f.activateErr with _ | e
    · refine ⟨sid, svs, sv, r, hb, rfl, ?_⟩
      rw [heq, activateStage_ok f _ _ ha]
      simp [postValidateState]
    · rw [heq, activateStage_fail f _ _ e ha] at h
      simp at h
  · exact absurd h hne

/-- The reach conditions imply the boolean step-success predicate. -/
theorem stepsOk_of_bundle (p : String → Option String) (o : Options) (v : List Vcl)
    (f : Fastly) (sid : String) (svs : List Service) (sv : Service) (r : ValidationResp)
    (hb : ReachBundle p o v f sid svs sv r) :
    stepsThroughValidationOk v f = true := by
  obtain ⟨-, -, -, hclone, hgetv, hdel, hup, hsetm, hval, hst⟩ := hb
  have hd : ∀ x ∈ f.inheritedFiles, f.deleteVclErr x.name = none :=
    List.findSome?_eq_none_iff.mp hdel
  have hu : ∀ x ∈ v, f.updateVclErr x.name = none :=
    List.findSome?_eq_none_iff.mp hup
  unfold stepsThroughValidationOk
  rw [hclone, hgetv, hsetm, hval]
  simp [List.all_eq_true, hst]
  constructor
  · intro x hx
    simp [hd x hx]
  · intro x hx
    simp [hu x hx]

/-- **C1.** For every deployment run that completes successfully, the
sequence of remote-client calls issued is exactly the canonical one —
resolve, clone the active version, list the inherited files, then the
per-file deletes (in array order), then the per-file uploads (in array
order), then set-entry-point, then validate, then activate — and, in every
run whatsoever, `activateVersion` is called only on the cloned version and
only when `validateVersion` has returned status `ok`. -/
theorem deploy_call_order (p : String → Option String) (o : Options) (v : List Vcl)
    (f : Fastly) (a₀ : Nat) :
    ((deployRun p o v f a₀).1 = .ok () →
      ∃ sv r,
        (deployRun p o v f a₀).2.trace =
          preActivateTrace o v f sv ++ [Call.activateVersion f.cloneNumber] ∧
        f.validateVersion = .ok r ∧ r.status = "ok") ∧
    (∀ m, Call.activateVersion m ∈ (deployRun p o v f a₀).2.trace →
      m = f.cloneNumber ∧ ∃ r, f.validateVersion = .ok r ∧ r.status = "ok") := by
  constructor
  · intro h
    obtain ⟨sid, svs, sv, r, hb, ha, heq⟩ := deployRun_ok_inv p o v f a₀ h
    obtain ⟨-, -, -, -, -, -, -, -, hval, hst⟩ := hb
    exact ⟨sv, r, by rw [heq], hval, hst⟩
  · intro m hm
    rcases deployRun_cases p o v f a₀ with ⟨sid, svs, sv, r, hb, heq⟩ | ⟨-, -, hno⟩
    · obtain ⟨-, -, -, -, -, -, -, -, hval, hst⟩ := hb
      refine ⟨?_, r, hval, hst⟩
      rw [heq, activateStage_trace] at hm
      simp [postValidateState, preActivateTrace] at hm
      exact hm
    · exact absurd hm (hno m)

/-- **C2.** For every run in which some step from clone through validation
fails, the run is not successful, `activateVersion` is never invoked, and
the service's active-version pointer at the end of the run equals its value
at the start. -/
theorem failed_run_leaves_active_version (p : String → Option String) (o : Options)
    (v : List Vcl) (f : Fastly) (a₀ : Nat)
    (h : stepsThroughValidationOk v f = false) :
    (deployRun p o v f a₀).1 ≠ .ok () ∧
    (∀ m, Call.activateVersion m ∉ (deployRun p o v f a₀).2.trace) ∧
    (deployRun p o v f a₀).2.activeVersion = a₀ := by
  rcases deployRun_cases p o v f a₀ with ⟨sid, svs, sv, r, hb, heq⟩ | ⟨h1, h2, h3⟩
  · rw [stepsOk_of_bundle p o v f sid svs sv r hb] at h
    exact absurd h (by simp)
  · exact ⟨h1, h3, h2⟩

/-- Folding successful uploads over a file set whose names are fresh and
pairwise distinct appends exactly the uploaded files. -/
theorem foldl_upsert_eq (f : Fastly) (vcls : List Vcl) (acc : List Vcl)
    (hup : ∀ x ∈ vcls, f.updateVclErr x.name = none)
    (hnd : (vcls.map Vcl.name).Nodup)
    (hdisj : ∀ a ∈ acc, ∀ x ∈ vcls, a.name ≠ x.name) :
    vcls.foldl (fun fs x => if (f.updateVclErr x.name).isSome then fs else upsert fs x) acc
      = acc ++ vcls := by
  induction vcls generalizing acc with
  | nil => simp
  | cons x rest ih =>
    have hx : f.updateVclErr x.name = none := hup x (by simp)
    have hupsert : upsert acc x = acc ++ [x] := by
      unfold upsert
      rw [if_neg]
      intro hc
      simp only [List.any_eq_true] at hc
      obtain ⟨a, ha, hae⟩ := hc
      exact hdisj a ha x (by simp) (beq_iff_eq.mp hae)
    rw [List.foldl_cons, hx]
    simp only [Option.isSome_none, Bool.false_eq_true, if_false, hupsert]
    have hpair : (∀ y ∈ rest, ¬ y.name = x.name) ∧ (rest.map Vcl.name).Nodup := by
      simpa using hnd
    have hdisj' : ∀ a ∈ acc ++ [x], ∀ y ∈ rest, a.name ≠ y.name := by
      intro a ha y hy
      rcases List.mem_append.mp ha with ha | ha
      · exact hdisj a ha y (by simp [hy])
      · have hax : a = x := by simpa using ha
        subst hax
        exact Ne.symm (hpair.1 y hy)
    rw [ih (acc ++ [x]) (fun y hy => hup y (by simp [hy])) hpair.2 hdisj']
    simp

/-- **C5.** After every successful deployment the file set of the newly
activated version is exactly the provided source file set (assuming, as the
spec's data model does, that the source file names are pairwise distinct):
every inherited file was deleted and every provided file uploaded, so no
file from the clone source survives unless re-uploaded. -/
theorem successful_deploy_files (p : String → Option String) (o : Options)
    (v : List Vcl) (f : Fastly) (a₀ : Nat)
    (hok : (deployRun p o v f a₀).1 = .ok ())
    (hnd : (v.map Vcl.name).Nodup) :
    (deployRun p o v f a₀).2.newFiles = v := by
  obtain ⟨sid, svs, sv, r, hb, ha, heq⟩ := deployRun_ok_inv p o v f a₀ hok
  obtain ⟨-, -, -, -, -, -, hup, -, -, -⟩ := hb
  rw [heq]
  simp only [postValidateState]
  exact foldl_upsert_eq f v []
    (List.findSome?_eq_none_iff.mp hup) hnd (by simp)

/-- **C6.** When the API credential is absent (or empty) in the process
environment, or the service parameter is absent (or empty), or the resolved
service identifier is the empty string, the run fails with one of the three
configuration errors of lines 33–46 and issues no remote call at all. -/
theorem config_error_no_remote_calls (p : String → Option String) (o : Options)
    (v : List Vcl) (f : Fastly) (a₀ : Nat)
    (h : o.service = none ∨ o.service = some "" ∨ p "FASTLY_APIKEY" = none ∨
         p "FASTLY_APIKEY" = some "" ∨
         (∃ svc, o.service = some svc ∧ resolveServiceId p svc = "")) :
    ((deployRun p o v f a₀).1 =
        .error (.error "the service parameter is required set to the service id of a environment variable name") ∨
     (deployRun p o v f a₀).1 = .error (.error "FASTLY_APIKEY not found") ∨
     (deployRun p o v f a₀).1 = .error (.error "No service ")) ∧
    (deployRun p o v f a₀).2.trace = [] := by
  have hcfg : configStage p o =
        .error (.error "the service parameter is required set to the service id of a environment variable name") ∨
      configStage p o = .error (.error "FASTLY_APIKEY not found") ∨
      configStage p o = .error (.error "No service ") := by
    rcases hs : o.service with _ | svc
    · left
      simp [configStage, hs]
    by_cases h1 : svc = ""
    · left
      simp [configStage, hs, h1]
    rcases hk : p "FASTLY_APIKEY" with _ | k
    · right; left
      simp [configStage, hs, h1, hk]
    by_cases h2 : k = ""
    · right; left
      simp [configStage, hs, h1, hk, h2]
    by_cases h3 : resolveServiceId p svc = ""
    · right; right
      simp [configStage, hs, h1, hk, h2, h3]
    · exfalso
      rcases h with h | h | h | h | ⟨svc', hsv, hres⟩
      · rw [hs] at h; exact Option.noConfusion h
      · rw [hs] at h
        exact h1 (Option.some.inj h)
      · rw [hk] at h; exact Option.noConfusion h
      · rw [hk] at h
        exact h2 (Option.some.inj h)
      · rw [hs] at hsv
        exact h3 (Option.some.inj hsv ▸ hres)
  rcases hcfg with hc | hc | hc
  · exact ⟨Or.inl (by simp [deployRun, hc]), by simp [deployRun, hc]⟩
  · exact ⟨Or.inr (Or.inl (by simp [deployRun, hc])), by simp [deployRun, hc]⟩
  · exact ⟨Or.inr (Or.inr (by simp [deployRun, hc])), by simp [deployRun, hc]⟩

/-- **C9.** Service-identifier resolution (line 42) consults the process
environment first: a set, non-empty environment variable named by the
service parameter silently overrides the parameter; only when the lookup is
unset or empty is the parameter itself used verbatim. -/
theorem resolveServiceId_env_first (p : String → Option String) (svc : String) :
    (∀ val, p svc = some val → val ≠ "" → resolveServiceId p svc = val) ∧
    ((p svc = none ∨ p svc = some "") → resolveServiceId p svc = svc) := by
  constructor
  · intro val hv hne
    simp [resolveServiceId, hv, hne]
  · rintro (hv | hv) <;> simp [resolveServiceId, hv]

/-- **C10.** The promise returned by `task` never rejects: every failure of
the inner run is consumed by the terminal catch handler, which logs, invokes
the exit routine and completes normally, so the caller always observes a
fulfilled promise. -/
theorem task_promise_never_rejects (p : String → Option String) (o : Options)
    (v : List Vcl) (f : Fastly) (a₀ : Nat) :
    ∃ out, taskPromise p o v f a₀ = .ok out := by
  unfold taskPromise
  rcases h : deployRun p o v f a₀ with ⟨res, s⟩
  rcases res with e | u
  · exact ⟨catchHandler e s, rfl⟩
  · exact ⟨⟨none, none, false, none, s⟩, rfl⟩

/-- **C4 (amended).** When validation completes but returns a status other
than `ok`, the run fails — the new version is never activated and the
active-version pointer is untouched — but the error thrown is the fixed
generic `Error('VCL failed validation for some unknown reason')` of line
103: it carries no remote diagnostic payload, and the terminal handler
reports it through the generic branch, not the validation-specific one. -/
theorem validation_rejected_generic (p : String → Option String) (o : Options)
    (v : List Vcl) (f : Fastly) (a₀ : Nat) (sid : String) (svs : List Service)
    (sv : Service) (r : ValidationResp)
    (hcfg : configStage p o = .ok sid)
    (hgs : f.getServices = .ok svs)
    (hfind : svs.find? (fun x => x.id == sid) = some sv)
    (hclone : f.cloneErr = none)
    (hgetv : f.getVclErr = none)
    (hdel : f.inheritedFiles.findSome? (fun x => f.deleteVclErr x.name) = none)
    (hup : v.findSome? (fun x => f.updateVclErr x.name) = none)
    (hsetm : f.setVclAsMainErr = none)
    (hval : f.validateVersion = .ok r)
    (hst : r.status ≠ "ok") :
    deployRun p o v f a₀ =
      (.error (.error "VCL failed validation for some unknown reason"),
       postValidateState o v f sv a₀) ∧
    jsValidation (.error "VCL failed validation for some unknown reason") = none ∧
    taskPromise p o v f a₀ =
      .ok ⟨some (.error "VCL failed validation for some unknown reason"),
           some HandlerBranch.generic, true, none, postValidateState o v f sv a₀⟩ ∧
    (∀ m, Call.activateVersion m ∉ (deployRun p o v f a₀).2.trace) ∧
    (deployRun p o v f a₀).2.activeVersion = a₀ := by
  have hfil : f.inheritedFiles.filter (fun x => (f.deleteVclErr x.name).isSome) = [] := by
    apply List.filter_eq_nil_iff.mpr
    intro x hx
    simp [List.findSome?_eq_none_iff.mp hdel x hx]
  have hrun : deployRun p o v f a₀ =
      (.error (.error "VCL failed validation for some unknown reason"),
       postValidateState o v f sv a₀) := by
    simp [deployRun, hcfg, resolveStage, hgs, hfind, cloneStage, hclone,
      versionWorkflow, cleanupStage, hgetv, hdel, hfil, uploadStage, hup,
      mainStage, hsetm, validateStage, hval, hst, postValidateState, preActivateTrace]
  refine ⟨hrun, rfl, ?_, ?_, ?_⟩
  · simp [taskPromise, hrun, catchHandler, isVclValidationError]
  · intro m
    rw [hrun]
    simpa [postValidateState] using preActivateTrace_no_activate o v f sv m
  · rw [hrun]
    rfl

/-- **C7 (amended).** When the service list returned by the remote contains
no service whose id equals the resolved serviceId, the run fails right after
the `getServices` call — before any mutating remote call — but the failure
is the generic `TypeError` raised by reading `.version` of `undefined` on
line 59: a fixed error value that names neither the sought service nor a
`ServiceNotFound` condition. -/
theorem service_not_found_type_error (p : String → Option String) (o : Options)
    (v : List Vcl) (f : Fastly) (a₀ : Nat) (sid : String) (svs : List Service)
    (hcfg : configStage p o = .ok sid)
    (hgs : f.getServices = .ok svs)
    (hfind : svs.find? (fun x => x.id == sid) = none) :
    deployRun p o v f a₀ =
      (.error (.typeError "Cannot read property version of undefined"),
       ⟨[Call.getServices], a₀, []⟩) := by
  simp [deployRun, hcfg, resolveStage, hgs, hfind]

/-- **C8 (amended).** The delete step and the upload step each succeed only
if every per-file operation succeeds, and on any per-file failure the run
stops with the half-modified version left in place and never activated — but
the error surfaced is the remote client's raw rejection for the first
failing file (in array order), not a `FileDeletionFailed`/`FileUploadFailed`
wrapper naming the file. -/
theorem per_file_failure_raw_error (p : String → Option String) (o : Options)
    (v : List Vcl) (f : Fastly) (a₀ : Nat) (sid : String) (svs : List Service)
    (sv : Service) (e : JsErr)
    (hcfg : configStage p o = .ok sid)
    (hgs : f.getServices = .ok svs)
    (hfind : svs.find? (fun x => x.id == sid) = some sv)
    (hclone : f.cloneErr = none)
    (hgetv : f.getVclErr = none) :
    (f.inheritedFiles.findSome? (fun x => f.deleteVclErr x.name) = some e →
      (deployRun p o v f a₀).1 = .error e ∧
      (∀ m, Call.activateVersion m ∉ (deployRun p o v f a₀).2.trace) ∧
      (deployRun p o v f a₀).2.activeVersion = a₀ ∧
      (deployRun p o v f a₀).2.newFiles =
        f.inheritedFiles.filter (fun x => (f.deleteVclErr x.name).isSome)) ∧
    (f.inheritedFiles.findSome? (fun x => f.deleteVclErr x.name) = none →
      v.findSome? (fun x => f.updateVclErr x.name) = some e →
      (deployRun p o v f a₀).1 = .error e ∧
      (∀ m, Call.activateVersion m ∉ (deployRun p o v f a₀).2.trace) ∧
      (deployRun p o v f a₀).2.activeVersion = a₀ ∧
      (deployRun p o v f a₀).2.newFiles =
        v.foldl (fun fs x => if (f.updateVclErr x.name).isSome then fs else upsert fs x) []) := by
  constructor
  · intro hdel
    refine ⟨?_, ?_, ?_, ?_⟩ <;>
      simp [deployRun, hcfg, resolveStage, hgs, hfind, cloneStage, hclone,
        versionWorkflow, cleanupStage, hgetv, hdel]
  · intro hdel hup
    have hfil : f.inheritedFiles.filter (fun x => (f.deleteVclErr x.name).isSome) = [] := by
      apply List.filter_eq_nil_iff.mpr
      intro x hx
      simp [List.findSome?_eq_none_iff.mp hdel x hx]
    refine ⟨?_, ?_, ?_, ?_⟩ <;>
      simp [deployRun, hcfg, resolveStage, hgs, hfind, cloneStage, hclone,
        versionWorkflow, cleanupStage, hgetv, hdel, hfil, uploadStage, hup]

/-! ## Concrete scenario environments -/

/-- A process environment holding only the API credential. -/
def envOkKey : String → Option String := fun k =>
  if k = "FASTLY_APIKEY" then some "secret-key" else none

/-- A process environment mapping the service parameter to a real id,
as when the parameter names an environment variable. -/
def envServiceVar : String → Option String := fun k =>
  if k = "svc-param" then some "real-service-id" else none

def optsDemo : Options := { service := some "svc1" }

def optsDemo2 : Options := { service := some "svc2" }

def optsNoService : Options := {}

def vclsDemo : List Vcl :=
  [⟨"main.vcl", "content-main"⟩, ⟨"edge.vcl", "content-edge"⟩]

/-- Scenario A: service `svc1` active at version 5, clone returns 6 with two
inherited files, and every remote operation succeeds. -/
def fastlyBase : Fastly :=
  { getServices := .ok [⟨"svc1", "The Service", 5⟩],
    cloneErr := none,
    cloneNumber := 6,
    inheritedFiles := [⟨"old1.vcl", "old-a"⟩, ⟨"old2.vcl", "old-b"⟩],
    getVclErr := none,
    deleteVclErr := fun _ => none,
    updateVclErr := fun _ => none,
    setVclAsMainErr := none,
    validateVersion := .ok ⟨"ok", []⟩,
    activateErr := none }

/-- Scenario A with a transport failure of the validation call itself. -/
def fastlyValErr : Fastly :=
  { fastlyBase with validateVersion := .error (.remote "ECONNRESET") }

/-- Scenario B: validation completes but rejects the configuration. -/
def fastlyValRejected : Fastly :=
  { fastlyBase with validateVersion := .ok ⟨"error", ["unknown variable X"]⟩ }

/-- Scenario B with a different remote diagnostic payload. -/
def fastlyValRejected2 : Fastly :=
  { fastlyBase with validateVersion := .ok ⟨"error", ["a different diagnostic"]⟩ }

/-- A remote whose service list contains no matching service. -/
def fastlyNoMatch : Fastly :=
  { fastlyBase with getServices := .ok [⟨"other-svc", "Another Service", 3⟩] }

/-- Scenario A but the delete of inherited file `old1.vcl` rejects. -/
def fastlyDelFail : Fastly :=
  { fastlyBase with
      deleteVclErr := fun nm => if nm = "old1.vcl" then some (.remote "boom") else none }

/-- Scenario A but the delete of inherited file `old2.vcl` rejects, with the
same raw client error as `fastlyDelFail`. -/
def fastlyDelFail2 : Fastly :=
  { fastlyBase with
      deleteVclErr := fun nm => if nm = "old2.vcl" then some (.remote "boom") else none }

/-- Scenario C: the upload of `edge.vcl` rejects while the other upload
succeeds. -/
def fastlyUpFail : Fastly :=
  { fastlyBase with
      updateVclErr := fun nm => if nm = "edge.vcl" then some (.remote "kaput") else none }

/-- **C3.** When the remote validate call itself errors, the run fails with
the *raw* transport error, not with the `VCL_VALIDATION_ERROR`-tagged
wrapper: line 97 executes `throw err` instead of `throw error`, discarding
the wrapper built on lines 94–96, so the terminal handler takes the generic
branch (`log.error(err.stack)`) instead of the validation-specific one. -/
theorem validation_transport_raw_error :
    (deployRun envOkKey optsDemo vclsDemo fastlyValErr 5).1 =
      .error (.remote "ECONNRESET") ∧
    isVclValidationError (.remote "ECONNRESET") = false ∧
    taskPromise envOkKey optsDemo vclsDemo fastlyValErr 5 =
      .ok ⟨some (.remote "ECONNRESET"), some HandlerBranch.generic, true, none,
           (deployRun envOkKey optsDemo vclsDemo fastlyValErr 5).2⟩ ∧
    (deployRun envOkKey optsDemo vclsDemo fastlyValErr 5).2.trace =
      [Call.getServices, Call.cloneVersion 5, Call.getVcl 6,
       Call.deleteVcl 6 "old1.vcl", Call.deleteVcl 6 "old2.vcl",
       Call.updateVcl 6 "main.vcl" "content-main",
       Call.updateVcl 6 "edge.vcl" "content-edge",
       Call.setVclAsMain 6 "main.vcl", Call.validateVersion 6] := by
  decide

/-- **C4 (counterexample).** Validation rejecting with two different remote
diagnostic payloads produces the identical fixed generic error, which
carries no `validation` payload and is reported through the generic branch —
so the diagnostic payload is neither carried verbatim nor reported
separately. -/
theorem validation_rejected_payload_dropped :
    (deployRun envOkKey optsDemo vclsDemo fastlyValRejected 5).1 =
      .error (.error "VCL failed validation for some unknown reason") ∧
    (deployRun envOkKey optsDemo vclsDemo fastlyValRejected2 5).1 =
      .error (.error "VCL failed validation for some unknown reason") ∧
    jsValidation (.error "VCL failed validation for some unknown reason") = none ∧
    taskPromise envOkKey optsDemo vclsDemo fastlyValRejected 5 =
      .ok ⟨some (.error "VCL failed validation for some unknown reason"),
           some HandlerBranch.generic, true, none,
           (deployRun envOkKey optsDemo vclsDemo fastlyValRejected 5).2⟩ := by
  decide

/-- **C7 (counterexample).** Two runs seeking two different service ids
against a list containing neither fail with the *identical* fixed
`TypeError` — an error that names neither the sought service nor a
not-found condition, hence not a distinguished `ServiceNotFound` failure. -/
theorem service_not_found_error_generic :
    (deployRun envOkKey optsDemo vclsDemo fastlyNoMatch 5).1 =
      .error (.typeError "Cannot read property version of undefined") ∧
    (deployRun envOkKey optsDemo2 vclsDemo fastlyNoMatch 5).1 =
      .error (.typeError "Cannot read property version of undefined") ∧
    (deployRun envOkKey optsDemo vclsDemo fastlyNoMatch 5).2.trace =
      [Call.getServices] := by
  decide

/-- **C8 (counterexample).** A failing per-file delete surfaces the remote
client's raw rejection: the runs in which `old1.vcl` and in which `old2.vcl`
is the offending file fail with the *identical* error value, so the failure
does not name the offending file, and there is no wrapper around the raw
client error.  A failing upload behaves the same way, leaving the
half-modified version (here with `main.vcl` already uploaded) in place. -/
theorem per_file_failure_error_not_named :
    (deployRun envOkKey optsDemo vclsDemo fastlyDelFail 5).1 =
      .error (.remote "boom") ∧
    (deployRun envOkKey optsDemo vclsDemo fastlyDelFail2 5).1 =
      .error (.remote "boom") ∧
    (deployRun envOkKey optsDemo vclsDemo fastlyUpFail 5).1 =
      .error (.remote "kaput") ∧
    (deployRun envOkKey optsDemo vclsDemo fastlyUpFail 5).2.newFiles =
      [⟨"main.vcl", "content-main"⟩] := by
  decide

/-! ## Witnesses -/

/-- Witness for the call-order theorem at the scenario-A environment. -/
theorem deploy_call_order_witness :
    ∃ sv r, (deployRun envOkKey optsDemo vclsDemo fastlyBase 5).2.trace =
        preActivateTrace optsDemo vclsDemo fastlyBase sv ++
          [Call.activateVersion fastlyBase.cloneNumber] ∧
      fastlyBase.validateVersion = .ok r ∧ r.status = "ok" :=
  (deploy_call_order envOkKey optsDemo vclsDemo fastlyBase 5).1 (by decide)

/-- Witness for the failed-run theorem at the scenario-B environment. -/
theorem failed_run_leaves_active_version_witness :
    (deployRun envOkKey optsDemo vclsDemo fastlyValRejected 5).1 ≠ .ok () ∧
    (∀ m, Call.activateVersion m ∉
      (deployRun envOkKey optsDemo vclsDemo fastlyValRejected 5).2.trace) ∧
    (deployRun envOkKey optsDemo vclsDemo fastlyValRejected 5).2.activeVersion = 5 :=
  failed_run_leaves_active_version envOkKey optsDemo vclsDemo fastlyValRejected 5
    (by decide)

/-- Witness for the final-file-set theorem at the scenario-A environment. -/
theorem successful_deploy_files_witness :
    (deployRun envOkKey optsDemo vclsDemo fastlyBase 5).2.newFiles = vclsDemo :=
  successful_deploy_files envOkKey optsDemo vclsDemo fastlyBase 5 (by decide) (by decide)

/-- Witness for the configuration-error theorem with the service parameter
absent. -/
theorem config_error_no_remote_calls_witness :
    ((deployRun envOkKey optsNoService vclsDemo fastlyBase 5).1 =
        .error (.error "the service parameter is required set to the service id of a environment variable name") ∨
     (deployRun envOkKey optsNoService vclsDemo fastlyBase 5).1 =
        .error (.error "FASTLY_APIKEY not found") ∨
     (deployRun envOkKey optsNoService vclsDemo fastlyBase 5).1 =
        .error (.error "No service ")) ∧
    (deployRun envOkKey optsNoService vclsDemo fastlyBase 5).2.trace = [] :=
  config_error_no_remote_calls envOkKey optsNoService vclsDemo fastlyBase 5 (Or.inl rfl)

/-- Witness for the amended validation-rejection theorem at scenario B. -/
theorem validation_rejected_generic_witness :
    deployRun envOkKey optsDemo vclsDemo fastlyValRejected 5 =
      (.error (.error "VCL failed validation for some unknown reason"),
       postValidateState optsDemo vclsDemo fastlyValRejected ⟨"svc1", "The Service", 5⟩ 5) :=
  (validation_rejected_generic envOkKey optsDemo vclsDemo fastlyValRejected 5 "svc1"
    [⟨"svc1", "The Service", 5⟩] ⟨"svc1", "The Service", 5⟩ ⟨"error", ["unknown variable X"]⟩
    (by decide) (by decide) (by decide) (by decide) (by decide) (by decide) (by decide)
    (by decide) (by decide) (by decide)).1

/-- Witness for the amended service-not-found theorem. -/
theorem service_not_found_type_error_witness :
    deployRun envOkKey optsDemo vclsDemo fastlyNoMatch 5 =
      (.error (.typeError "Cannot read property version of undefined"),
       ⟨[Call.getServices], 5, []⟩) :=
  service_not_found_type_error envOkKey optsDemo vclsDemo fastlyNoMatch 5 "svc1"
    [⟨"other-svc", "Another Service", 3⟩] (by decide) (by decide) (by decide)

/-- Witness for the amended per-file-failure theorem at the failing-delete
environment. -/
theorem per_file_failure_raw_error_witness :
    (deployRun envOkKey optsDemo vclsDemo fastlyDelFail 5).1 = .error (.remote "boom") :=
  ((per_file_failure_raw_error envOkKey optsDemo vclsDemo fastlyDelFail 5 "svc1"
      [⟨"svc1", "The Service", 5⟩] ⟨"svc1", "The Service", 5⟩ (.remote "boom")
      (by decide) (by decide) (by decide) (by decide) (by decide)).1 (by decide)).1

/-- Witness for the resolution theorem: a set, non-empty environment
variable overrides the literal parameter. -/
theorem resolveServiceId_env_first_witness :
    resolveServiceId envServiceVar "svc-param" = "real-service-id" :=
  (resolveServiceId_env_first envServiceVar "svc-param").1 "real-service-id"
    (by decide) (by decide)
